import Mathlib

/-!
Verification of the proof-of-sql repository's specification against its code.

The only implementation file present in the sources is
`crates/proof-of-sql/src/base/database/scalar_and_i256_conversions.rs`;
its two conversion functions are embedded below over `Nat` (for the
curve25519 scalar field, elements being naturals `< q`) and `Int`
(for the arrow `i256` type, values in `[-2^255, 2^255)`).
The query prove/verify pipeline, the Arrow boundary conversions and the
`OwnedTable` constructor are only present through their tests, so they are
modelled from the specification further down.
-/

namespace ProofOfSql

/-- The order of the curve25519 group: `q = 2^252 + 27742317777372353535851937790883648493`.
A scalar is a natural number `< q`. -/
def q : Nat := 2 ^ 252 + 27742317777372353535851937790883648493

/-- `MAX_SIGNED = (q - 1) / 2`, the boundary between the non-negative and the
negative signed interpretations of a scalar. -/
def MAX_SIGNED : Nat := (q - 1) / 2

/-- Field negation of a scalar: `-s = q - s` for `s ≠ 0`, and `-0 = 0`. -/
def scalar_neg (s : Nat) : Nat := (q - s) % q

/-- The `i`-th little-endian 64-bit limb of a natural number, as in
`let limbs : [u64; 4] = abs_scalar.into()`. -/
def limb (a : Nat) (i : Nat) : Nat := a / 2 ^ (64 * i) % 2 ^ 64

/-- Reinterpret the low 128 bits of a natural number as a signed `i128`. -/
def toSigned128 (x : Nat) : Int :=
  if x < 2 ^ 127 then (x : Int) else (x : Int) - 2 ^ 128

/-- `i256::from_parts(low, high)`: the 256-bit signed value `high * 2^128 + low`. -/
def i256_from_parts (low : Nat) (high : Int) : Int := high * 2 ^ 128 + (low : Int)

/-- Reduce an integer into the signed 256-bit range `[-2^255, 2^255)`,
the effect of any wrapping `i256` operation. -/
def wrap256 (x : Int) : Int := (x + 2 ^ 255) % 2 ^ 256 - 2 ^ 255

/-- `i256::wrapping_neg`: two's-complement wrapping negation. -/
def i256_wrapping_neg (v : Int) : Int := wrap256 (-v)

/-- `-*value` on `i256` (the `Neg` impl), which wraps on `i256::MIN`. -/
def i256_neg (v : Int) : Int := wrap256 (-v)

/-- The packing step of `convert_scalar_to_i256`, applied to the absolute
scalar `a`: `low = (limbs[0] as u128) | ((limbs[1] as u128) << 64)` and
`high = (limbs[2] as i128) | ((limbs[3] as i128) << 64)`, then
`i256::from_parts(low, high)`. -/
def pack_abs (a : Nat) : Int :=
  i256_from_parts (limb a 0 + limb a 1 * 2 ^ 64)
    (toSigned128 ((limb a 2 + limb a 3 * 2 ^ 64) % 2 ^ 128))

/-- Embedding of `convert_scalar_to_i256` from
`scalar_and_i256_conversions.rs`: `is_negative = val > MAX_SIGNED`;
the absolute scalar is field-negated when negative, packed into an `i256`
from its four little-endian 64-bit limbs, and `wrapping_neg`-ed back when
negative. -/
def convert_scalar_to_i256 (s : Nat) : Int :=
  if MAX_SIGNED < s then i256_wrapping_neg (pack_abs (scalar_neg s))
  else pack_abs s

/-- `MIN_SUPPORTED_I256 = i256::from_parts(326411208032252286695448638536326387210, -10633823966279326983230456482242756609)`. -/
def MIN_SUPPORTED_I256 : Int :=
  i256_from_parts 326411208032252286695448638536326387210
    (-10633823966279326983230456482242756609)

/-- `MAX_SUPPORTED_I256 = i256::from_parts(13871158888686176767925968895441824246, 10633823966279326983230456482242756608)`. -/
def MAX_SUPPORTED_I256 : Int :=
  i256_from_parts 13871158888686176767925968895441824246
    10633823966279326983230456482242756608

/-- `[u64; 4].into() : S` — a scalar from four little-endian 64-bit limbs,
total, reducing the 256-bit value modulo `q`. -/
def fromLimbs (l0 l1 l2 l3 : Nat) : Nat :=
  (l0 + l1 * 2 ^ 64 + l2 * 2 ^ 128 + l3 * 2 ^ 192) % q

/-- Embedding of `convert_i256_to_scalar` from
`scalar_and_i256_conversions.rs`: `None` outside
`[MIN_SUPPORTED_I256, MAX_SUPPORTED_I256]`; otherwise take the absolute
value, split `to_parts` output into four 64-bit limbs
(`low as u64`, `(low >> 64) as u64`, `high as u64`, `(high >> 64) as u64`),
lift to a scalar, and field-negate when the input was negative.
`(v % 2^256).toNat` is the two's-complement bit pattern of the `i256`. -/
def convert_i256_to_scalar (v : Int) : Option Nat :=
  if v < MIN_SUPPORTED_I256 ∨ MAX_SUPPORTED_I256 < v then none
  else
    let abs_value : Int := if v < 0 then i256_neg v else v
    let bits : Nat := (abs_value % 2 ^ 256).toNat
    let low : Nat := bits % 2 ^ 128
    let highBits : Nat := bits / 2 ^ 128
    let scalar : Nat :=
      fromLimbs (low % 2 ^ 64) (low / 2 ^ 64 % 2 ^ 64)
        (highBits % 2 ^ 64) (highBits / 2 ^ 64 % 2 ^ 64)
    some (if v < 0 then scalar_neg scalar else scalar)

theorem max_signed_lt_2_252 : MAX_SIGNED < 2 ^ 252 := by decide

theorem two_mul_max_signed : 2 * MAX_SIGNED + 1 = q := by decide

theorem max_supported_eq : MAX_SUPPORTED_I256 = (MAX_SIGNED : Int) := by
  norm_num [MAX_SUPPORTED_I256, i256_from_parts, MAX_SIGNED, q]

theorem min_supported_eq : MIN_SUPPORTED_I256 = -(MAX_SIGNED : Int) := by
  norm_num [MIN_SUPPORTED_I256, i256_from_parts, MAX_SIGNED, q]

theorem q_val :
    q = 7237005577332262213973186563042994240857116359379907606001950938285454250989 := by
  decide

theorem max_signed_val :
    MAX_SIGNED = 3618502788666131106986593281521497120428558179689953803000975469142727125494 := by
  decide

theorem pack_abs_eq (a : Nat) (ha : a < 2 ^ 252) : pack_abs a = (a : Int) := by
  unfold pack_abs i256_from_parts toSigned128 limb
  norm_num
  split
  · omega
  · omega

theorem wrap256_eq_self (x : Int) (h1 : -(2 ^ 255) ≤ x) (h2 : x < 2 ^ 255) :
    wrap256 x = x := by
  unfold wrap256
  norm_num at h1 h2 ⊢
  omega

theorem convert_i256_to_scalar_ofNat (b : Nat) (hb : b ≤ MAX_SIGNED) :
    convert_i256_to_scalar (b : Int) = some b := by
  have hms := max_signed_val
  have hqv := q_val
  have hnot : ¬ ((b : Int) < MIN_SUPPORTED_I256 ∨ MAX_SUPPORTED_I256 < (b : Int)) := by
    rw [min_supported_eq, max_supported_eq]
    omega
  have hneg : ¬ ((b : Int) < 0) := by omega
  have hb256 : ((b : Int) % 2 ^ 256).toNat = b := by
    norm_num
    omega
  simp only [convert_i256_to_scalar, if_neg hnot, if_neg hneg, hb256, fromLimbs, q_val,
    Option.some.injEq]
  have hrec :
      b % 2 ^ 128 % 2 ^ 64 + b % 2 ^ 128 / 2 ^ 64 % 2 ^ 64 * 2 ^ 64 +
          b / 2 ^ 128 % 2 ^ 64 * 2 ^ 128 + b / 2 ^ 128 / 2 ^ 64 % 2 ^ 64 * 2 ^ 192 = b := by
    omega
  rw [hrec]
  omega

theorem convert_i256_to_scalar_negNat (b : Nat) (hb0 : 0 < b) (hb : b ≤ MAX_SIGNED) :
    convert_i256_to_scalar (-(b : Int)) = some (q - b) := by
  have hms := max_signed_val
  have hqv := q_val
  have hnot : ¬ ((-(b : Int)) < MIN_SUPPORTED_I256 ∨ MAX_SUPPORTED_I256 < (-(b : Int))) := by
    rw [min_supported_eq, max_supported_eq]
    omega
  have hneg : (-(b : Int)) < 0 := by omega
  have habs : i256_neg (-(b : Int)) = (b : Int) := by
    unfold i256_neg
    rw [neg_neg]
    exact wrap256_eq_self _ (by omega) (by norm_num; omega)
  have hb256 : ((b : Int) % 2 ^ 256).toNat = b := by
    norm_num
    omega
  simp only [convert_i256_to_scalar, if_neg hnot, if_pos hneg, habs, hb256, fromLimbs,
    scalar_neg, q_val, Option.some.injEq]
  have hrec :
      b % 2 ^ 128 % 2 ^ 64 + b % 2 ^ 128 / 2 ^ 64 % 2 ^ 64 * 2 ^ 64 +
          b / 2 ^ 128 % 2 ^ 64 * 2 ^ 128 + b / 2 ^ 128 / 2 ^ 64 % 2 ^ 64 * 2 ^ 192 = b := by
    omega
  rw [hrec]
  omega

theorem convert_scalar_to_i256_of_le (s : Nat) (hs : s ≤ MAX_SIGNED) :
    convert_scalar_to_i256 s = (s : Int) := by
  have hms := max_signed_val
  unfold convert_scalar_to_i256
  rw [if_neg (by omega)]
  exact pack_abs_eq s (by norm_num; omega)

theorem convert_scalar_to_i256_of_gt (s : Nat) (h1 : MAX_SIGNED < s) (h2 : s < q) :
    convert_scalar_to_i256 s = -((q - s : Nat) : Int) := by
  have hms := max_signed_val
  have hqv := q_val
  have hq2 := two_mul_max_signed
  unfold convert_scalar_to_i256
  rw [if_pos h1]
  have hsn : scalar_neg s = q - s := by
    unfold scalar_neg
    rw [q_val]
    omega
  rw [hsn, pack_abs_eq (q - s) (by norm_num; omega)]
  unfold i256_wrapping_neg
  exact wrap256_eq_self _ (by norm_num; omega) (by norm_num; omega)

theorem scalar_neg_of_pos (s : Nat) (h1 : 0 < s) (h2 : s < q) : scalar_neg s = q - s := by
  unfold scalar_neg
  rw [q_val] at h2 ⊢
  omega

theorem packLimbs_recombines (a : Nat) (ha : a < 2 ^ 256) :
    limb a 0 + limb a 1 * 2 ^ 64 + limb a 2 * 2 ^ 128 + limb a 3 * 2 ^ 192 = a := by
  unfold limb
  norm_num
  omega

theorem convert_i256_to_scalar_eq_none_iff (v : Int) :
    convert_i256_to_scalar v = none ↔
      (v < -(MAX_SIGNED : Int) ∨ (MAX_SIGNED : Int) < v) := by
  rw [← min_supported_eq, ← max_supported_eq]
  unfold convert_i256_to_scalar
  split
  · next h => exact iff_of_true rfl h
  · next h => exact iff_of_false (fun hc => Option.noConfusion hc) h

/-- C4: Scalar↔I256 round-trip. For every scalar `s` (a natural `< q`),
`convert_i256_to_scalar (convert_scalar_to_i256 s) = some s`; and for every
`i256` value `v` in the supported range `[-MAX_SIGNED, MAX_SIGNED]`,
`convert_i256_to_scalar v` succeeds with a scalar that
`convert_scalar_to_i256` maps back to `v`. -/
theorem scalar_i256_round_trip :
    (∀ s : Nat, s < q → convert_i256_to_scalar (convert_scalar_to_i256 s) = some s) ∧
    (∀ v : Int, -(MAX_SIGNED : Int) ≤ v → v ≤ (MAX_SIGNED : Int) →
      ∃ s : Nat, convert_i256_to_scalar v = some s ∧ convert_scalar_to_i256 s = v) := by
  have hms := max_signed_val
  have hqv := q_val
  constructor
  · intro s hs
    by_cases hcase : s ≤ MAX_SIGNED
    · rw [convert_scalar_to_i256_of_le s hcase, convert_i256_to_scalar_ofNat s hcase]
    · push_neg at hcase
      rw [convert_scalar_to_i256_of_gt s hcase hs,
        convert_i256_to_scalar_negNat (q - s) (by omega) (by omega)]
      congr 1
      omega
  · intro v h1 h2
    by_cases hv : 0 ≤ v
    · obtain ⟨b, rfl⟩ := Int.eq_ofNat_of_zero_le hv
      have hb : b ≤ MAX_SIGNED := by omega
      exact ⟨b, convert_i256_to_scalar_ofNat b hb, convert_scalar_to_i256_of_le b hb⟩
    · push_neg at hv
      obtain ⟨b, rfl⟩ : ∃ b : Nat, v = -(b : Int) := ⟨(-v).toNat, by omega⟩
      have hb0 : 0 < b := by omega
      have hb : b ≤ MAX_SIGNED := by omega
      refine ⟨q - b, convert_i256_to_scalar_negNat b hb0 hb, ?_⟩
      rw [convert_scalar_to_i256_of_gt (q - b) (by omega) (by omega)]
      congr 1
      omega

/-- Witness for C4 at the concrete inputs `s = 7` and `v = -3`. -/
theorem scalar_i256_round_trip_witness :
    convert_i256_to_scalar (convert_scalar_to_i256 7) = some 7 ∧
    (∃ s : Nat, convert_i256_to_scalar (-3) = some s ∧ convert_scalar_to_i256 s = -3) :=
  ⟨scalar_i256_round_trip.1 7 (by decide),
   scalar_i256_round_trip.2 (-3) (by rw [max_signed_val]; norm_num)
     (by rw [max_signed_val]; norm_num)⟩

/-- C5: `convert_i256_to_scalar` returns `none` exactly when the input is
strictly below `-MAX_SIGNED` or strictly above `MAX_SIGNED`; in particular
it returns `none` at `i256::MAX = 2^255 - 1`, at `MAX_SUPPORTED_I256 + 1`,
at `i256::MIN = -2^255` and at `MIN_SUPPORTED_I256 - 1`, and `some` on the
whole inclusive range (the forward direction of the iff). -/
theorem i256_conversion_range :
    (∀ v : Int, convert_i256_to_scalar v = none ↔
      (v < -(MAX_SIGNED : Int) ∨ (MAX_SIGNED : Int) < v)) ∧
    convert_i256_to_scalar (2 ^ 255 - 1) = none ∧
    convert_i256_to_scalar (MAX_SUPPORTED_I256 + 1) = none ∧
    convert_i256_to_scalar (-(2 ^ 255)) = none ∧
    convert_i256_to_scalar (MIN_SUPPORTED_I256 - 1) = none := by
  have hms := max_signed_val
  refine ⟨convert_i256_to_scalar_eq_none_iff, ?_, ?_, ?_, ?_⟩
  · rw [convert_i256_to_scalar_eq_none_iff]
    norm_num
    omega
  · rw [convert_i256_to_scalar_eq_none_iff, max_supported_eq]
    omega
  · rw [convert_i256_to_scalar_eq_none_iff]
    norm_num
    omega
  · rw [convert_i256_to_scalar_eq_none_iff, min_supported_eq]
    omega

/-- Modelled from the spec: §4.B's algorithmic description of
`scalar_to_i256(s)` — "if `s ≤ MAX_SIGNED`, pack `s`'s four 64-bit limbs
into an `I256`; otherwise negate (in field) first and then negate the
`I256` (two's-complement wrapping)". `packLimbs` recombines the four
little-endian 64-bit limbs into the 256-bit integer value. -/
def packLimbs (a : Nat) : Int :=
  ((limb a 0 + limb a 1 * 2 ^ 64 + limb a 2 * 2 ^ 128 + limb a 3 * 2 ^ 192 : Nat) : Int)

/-- Modelled from the spec: the §4.B algorithm for scalar-to-I256
conversion, stated independently of the code's `from_parts` packing. -/
def scalar_to_i256_spec (s : Nat) : Int :=
  if s ≤ MAX_SIGNED then packLimbs s else wrap256 (-(packLimbs (scalar_neg s)))

/-- C6: the code's `convert_scalar_to_i256` computes exactly the
specification's algorithm: pack the limbs when `s ≤ MAX_SIGNED`, else the
two's-complement wrapping negation of the packed limbs of the field
negation `-s`. -/
theorem convert_scalar_to_i256_matches_spec (s : Nat) (hs : s < q) :
    convert_scalar_to_i256 s = scalar_to_i256_spec s := by
  have hms := max_signed_val
  have hqv := q_val
  unfold scalar_to_i256_spec packLimbs
  by_cases hcase : s ≤ MAX_SIGNED
  · rw [if_pos hcase, convert_scalar_to_i256_of_le s hcase,
      packLimbs_recombines s (by norm_num; omega)]
  · push_neg at hcase
    rw [if_neg (by omega), convert_scalar_to_i256_of_gt s hcase hs,
      scalar_neg_of_pos s (by omega) hs,
      packLimbs_recombines (q - s) (by norm_num; omega)]
    unfold wrap256
    norm_num
    omega

/-- Witness for C6 at the concrete scalars `12345` (non-negative
interpretation) and `q - 12345` (negative interpretation). -/
theorem convert_scalar_to_i256_matches_spec_witness :
    convert_scalar_to_i256 12345 = scalar_to_i256_spec 12345 ∧
    convert_scalar_to_i256 (q - 12345) = scalar_to_i256_spec (q - 12345) :=
  ⟨convert_scalar_to_i256_matches_spec 12345 (by decide),
   convert_scalar_to_i256_matches_spec (q - 12345) (by decide)⟩

/-- C9: the supported I256 range is exactly symmetric about zero:
`MIN_SUPPORTED_I256 = -MAX_SUPPORTED_I256`, and consequently a value `v`
converts successfully if and only if `-v` does. -/
theorem supported_range_symmetric :
    MIN_SUPPORTED_I256 = -MAX_SUPPORTED_I256 ∧
    (∀ v : Int, (convert_i256_to_scalar v).isSome ↔
      (convert_i256_to_scalar (-v)).isSome) := by
  constructor
  · rw [min_supported_eq, max_supported_eq]
  · intro v
    rw [← Option.ne_none_iff_isSome, ← Option.ne_none_iff_isSome,
      not_iff_not, convert_i256_to_scalar_eq_none_iff,
      convert_i256_to_scalar_eq_none_iff]
    omega

/-- Modelled from the spec: §3's `OwnedColumn` — a typed,
length-homogeneous vector, one variant per `ColumnType` used by the
claims (`Boolean`, `BigInt`, `Int128`, `VarChar`, `Scalar`,
`Decimal75`). `scalarCol` holds raw field elements. Missing from `src/`:
`owned_column.rs` (only the module listing and tests are present). -/
inductive OwnedColumn
  | boolean (vals : List Bool)
  | bigInt (vals : List Int)
  | int128 (vals : List Int)
  | varChar (vals : List String)
  | scalarCol (vals : List Nat)
  | decimal75 (p : Nat) (s : Int) (vals : List Int)
deriving DecidableEq

/-- An ordered mapping from identifier to column (§3's `OwnedTable`). -/
abbrev OwnedTable := List (String × OwnedColumn)

/-- The number of rows of a column. -/
def OwnedColumn.len : OwnedColumn → Nat
  | .boolean vals => vals.length
  | .bigInt vals => vals.length
  | .int128 vals => vals.length
  | .varChar vals => vals.length
  | .scalarCol vals => vals.length
  | .decimal75 _ _ vals => vals.length

/-- Errors of `OwnedTable::try_new` (§4.C). -/
inductive OwnedTableError
  | columnLengthMismatch
  | duplicateIdentifier
deriving DecidableEq

/-- Modelled from the spec: `OwnedTable::try_new` (§3, §4.C) — identifiers
must be unique (case-SENSITIVE internally) and all columns must have equal
length; violations fail with `DuplicateIdentifier` or
`ColumnLengthMismatch`. Missing from `src/`: `owned_table.rs`. -/
def tryNewOwnedTable (cols : List (String × OwnedColumn)) :
    Except OwnedTableError OwnedTable :=
  if (cols.map Prod.fst).Nodup then
    match cols with
    | [] => .ok []
    | c :: rest =>
        if rest.all (fun d => (d.2).len == (c.2).len) then .ok (c :: rest)
        else .error .columnLengthMismatch
  else .error .duplicateIdentifier

/-- Modelled from the spec: §4.E's `DynProofExpr` fragment the claims
exercise — column reference, `BigInt`/`Int128` literals, add, multiply and
the equality predicate. Missing from `src/`: the `proof_exprs` module
(only its tests are present). -/
inductive DynProofExpr
  | column (name : String)
  | litBigInt (v : Int)
  | litInt128 (v : Int)
  | addExpr (l r : DynProofExpr)
  | mulExpr (l r : DynProofExpr)
  | equalsExpr (l r : DynProofExpr)
deriving DecidableEq

/-- Fetch a column by name from an accessor table (§4.D data capability). -/
def lookupColumn (t : OwnedTable) (name : String) : Option OwnedColumn :=
  (t.find? (fun c => c.1 == name)).map Prod.snd

/-- The per-row integer view of a numeric column, used for the equality
gadget's scalar encoding (§4.C, §4.E): the field encoding of `BigInt` and
`Int128` values is their integer value. -/
def numericVals : OwnedColumn → Option (List Int)
  | .bigInt vals => some vals
  | .int128 vals => some vals
  | _ => none

/-- Modelled from the spec: §4.E `result_evaluate` — each expression
produces the concrete result column of length `row_count`; `BigInt`
arithmetic that overflows 64 bits is a fatal evaluation error (§4.F
failure semantics), equality compares the scalar encodings point-wise and
yields a boolean column, and mixing non-numeric types into arithmetic is a
type error. -/
def evalExpr (t : OwnedTable) (n : Nat) : DynProofExpr → Option OwnedColumn
  | .column name => lookupColumn t name
  | .litBigInt v => some (.bigInt (List.replicate n v))
  | .litInt128 v => some (.int128 (List.replicate n v))
  | .addExpr l r =>
      match evalExpr t n l, evalExpr t n r with
      | some (.bigInt xs), some (.bigInt ys) =>
          let zs := List.zipWith (fun a b => a + b) xs ys
          if zs.all (fun z => decide (-(2 ^ 63) ≤ z ∧ z < 2 ^ 63)) then
            some (.bigInt zs)
          else none
      | _, _ => none
  | .mulExpr l r =>
      match evalExpr t n l, evalExpr t n r with
      | some (.bigInt xs), some (.bigInt ys) =>
          let zs := List.zipWith (fun a b => a * b) xs ys
          if zs.all (fun z => decide (-(2 ^ 63) ≤ z ∧ z < 2 ^ 63)) then
            some (.bigInt zs)
          else none
      | _, _ => none
  | .equalsExpr l r =>
      match evalExpr t n l, evalExpr t n r with
      | some a, some b =>
          match numericVals a, numericVals b with
          | some xs, some ys =>
              some (.boolean (List.zipWith (fun u w => decide (u = w)) xs ys))
          | _, _ => none
      | _, _ => none

/-- Modelled from the spec: §4.F's `DynProofPlan` fragment the claims
exercise — `ProjectionExec` (aliased expressions over the scanned input
table) and `FilterExec` (result expressions restricted by a boolean
predicate). Missing from `src/`: the `proof_plans` module (only its tests
are present). -/
inductive DynProofPlan
  | projection (aliasedExprs : List (DynProofExpr × String))
  | filterExec (resultExprs : List (DynProofExpr × String)) (predicate : DynProofExpr)
deriving DecidableEq

/-- Keep the rows of `xs` whose flag in `p` is `true`, in input order:
the spec's row-selection mask (§4.F filter protocol). -/
def maskList {α : Type} (p : List Bool) (xs : List α) : List α :=
  (List.zip p xs).filterMap (fun bx => if bx.1 then some bx.2 else none)

/-- Row selection applied to each column variant. -/
def maskColumn (p : List Bool) : OwnedColumn → OwnedColumn
  | .boolean vals => .boolean (maskList p vals)
  | .bigInt vals => .bigInt (maskList p vals)
  | .int128 vals => .int128 (maskList p vals)
  | .varChar vals => .varChar (maskList p vals)
  | .scalarCol vals => .scalarCol (maskList p vals)
  | .decimal75 pr s vals => .decimal75 pr s (maskList p vals)

/-- Evaluate a list of aliased expressions to an output table in order
(§4.F: "result columns are emitted in the order given by the plan's
`aliased_exprs`/`result_exprs` list"). -/
def evalExprs (t : OwnedTable) (n : Nat) (es : List (DynProofExpr × String)) :
    Option OwnedTable :=
  es.mapM (fun e => (evalExpr t n e.1).map (fun c => (e.2, c)))

/-- Modelled from the spec: plan evaluation over the scanned table (§4.F)
— projection returns the aliased expression results; filter evaluates the
boolean predicate and selects the matching rows of each result column,
preserving their relative input order. -/
def evalPlan (t : OwnedTable) (n : Nat) : DynProofPlan → Option OwnedTable
  | .projection es => evalExprs t n es
  | .filterExec es pred =>
      match evalExpr t n pred with
      | some (.boolean p) =>
          (evalExprs t n es).map (fun cols => cols.map (fun c => (c.1, maskColumn p c.2)))
      | _ => none

/-- The leaf columns an expression reads (§4.E `get_column_references`). -/
def getColumnReferencesExpr : DynProofExpr → List String
  | .column name => [name]
  | .litBigInt _ => []
  | .litInt128 _ => []
  | .addExpr l r => getColumnReferencesExpr l ++ getColumnReferencesExpr r
  | .mulExpr l r => getColumnReferencesExpr l ++ getColumnReferencesExpr r
  | .equalsExpr l r => getColumnReferencesExpr l ++ getColumnReferencesExpr r

/-- Every leaf column read anywhere in the plan (§4.F item 2). -/
def getColumnReferences : DynProofPlan → List String
  | .projection es => (es.map (fun e => getColumnReferencesExpr e.1)).flatten
  | .filterExec es pred =>
      (es.map (fun e => getColumnReferencesExpr e.1)).flatten ++
        getColumnReferencesExpr pred

/-- Modelled from the spec: §4.G's `VerifiableQueryResult` — the public
result preview together with the transcript-bound proof. Commitments are
modelled as the committed column data itself (a binding commitment is
injective, and the glossary notes revealing the column lets anyone verify
the binding), recorded per referenced column in plan order (§5 ordering
guarantees). -/
structure VerifiableQueryResult where
  commitments : List (String × Option OwnedColumn)
  result : OwnedTable
deriving DecidableEq

/-- The commitments the accessor provides for every column the plan
reads (§4.D commitment capability, in plan order). -/
def commitmentsFor (plan : DynProofPlan) (acc : OwnedTable) :
    List (String × Option OwnedColumn) :=
  (getColumnReferences plan).map (fun name => (name, lookupColumn acc name))

/-- Table row count as the metadata accessor reports it (§4.D). -/
def rowCount (acc : OwnedTable) : Nat :=
  match acc with
  | [] => 0
  | c :: _ => (c.2).len

/-- Modelled from the spec: `VerifiableQueryResult::new` (§4.G) — drive
both prover phases: evaluate the plan over the accessor's data and bind
the input commitments and the public result into the transcript. -/
def prove (plan : DynProofPlan) (acc : OwnedTable) : Option VerifiableQueryResult :=
  (evalPlan acc (rowCount acc) plan).map
    (fun res => ⟨commitmentsFor plan acc, res⟩)

/-- Verifier-side failure (§7 Verification error kind). -/
inductive QueryError
  | verification
deriving DecidableEq

/-- Modelled from the spec: `verify` (§4.G) — replay the transcript
against the public plan and the commitments obtained from the verifier's
accessor; a commitment mismatch or a failed polynomial identity is a
`Verification` error, and on success the decoded `OwnedTable` is
returned. With commitments modelled as the committed columns, the
polynomial identities hold exactly when the claimed result equals the
plan evaluated over the committed data. -/
def verify (plan : DynProofPlan) (vqr : VerifiableQueryResult) (acc : OwnedTable) :
    Except QueryError OwnedTable :=
  if commitmentsFor plan acc = vqr.commitments then
    match evalPlan acc (rowCount acc) plan with
    | some res => if res = vqr.result then .ok res else .error .verification
    | none => .error .verification
  else .error .verification

/-- The `SELECT a WHERE b = 0` filter of the equality tests: result
column `a`, predicate `EqualsExpr(b, 0)`. -/
def equalityFilterPlan : DynProofPlan :=
  .filterExec [(.column "a", "a")] (.equalsExpr (.column "b") (.litBigInt 0))

/-- The prover-side accessor of the tamper-detection test:
`a = [1,2,3,4]`, `b = [0,5,0,5]`. -/
def proverAccessorC1 : OwnedTable :=
  [("a", .bigInt [1, 2, 3, 4]), ("b", .bigInt [0, 5, 0, 5])]

/-- The verifier-side accessor of the tamper-detection test: identical
except the single cell `b[1] = 2` instead of `5`. -/
def verifierAccessorC1 : OwnedTable :=
  [("a", .bigInt [1, 2, 3, 4]), ("b", .bigInt [0, 2, 0, 5])]

/-- C1: tamper detection — the proof built against `b = [0,5,0,5]` does
not verify against the accessor whose cell was altered to
`b = [0,2,0,5]`: `verify` returns a `Verification` error. -/
theorem verify_fails_if_data_differ :
    (prove equalityFilterPlan proverAccessorC1).map
      (fun vqr => verify equalityFilterPlan vqr verifierAccessorC1) =
    some (.error .verification) := by
  rfl

/-- The arithmetic projection plan `PROJECT b+1 AS b, a*b AS prod`. -/
def arithmeticProjectionPlan : DynProofPlan :=
  .projection [(.addExpr (.column "b") (.litBigInt 1), "b"),
    (.mulExpr (.column "a") (.column "b"), "prod")]

/-- The accessor for table `sxt.t` with `a = [1,4,5,2,5]`,
`b = [1,2,3,4,5]` (both `BigInt`). -/
def accessorC2 : OwnedTable :=
  [("a", .bigInt [1, 4, 5, 2, 5]), ("b", .bigInt [1, 2, 3, 4, 5])]

/-- C2: completeness of the arithmetic projection — proving
`PROJECT b+1 AS b, a*b AS prod` and verifying against the same accessor
succeeds and returns `b = [2,3,4,5,6]`, `prod = [1,8,15,8,25]`, in that
order. -/
theorem nontrivial_projection_proves_and_verifies :
    (prove arithmeticProjectionPlan accessorC2).map
      (fun vqr => verify arithmeticProjectionPlan vqr accessorC2) =
    some (.ok [("b", .bigInt [2, 3, 4, 5, 6]), ("prod", .bigInt [1, 8, 15, 8, 25])]) := by
  rfl

/-- The accessor of the multi-row equality test: `a = [1,2,3,4]`,
`b = [0,5,0,5]`. -/
def accessorC3 : OwnedTable :=
  [("a", .bigInt [1, 2, 3, 4]), ("b", .bigInt [0, 5, 0, 5])]

theorem maskList_nil_left {α : Type} (xs : List α) : maskList [] xs = [] := by
  simp [maskList]

theorem maskList_cons {α : Type} (b : Bool) (p : List Bool) (x : α) (xs : List α) :
    maskList (b :: p) (x :: xs) =
      if b then x :: maskList p xs else maskList p xs := by
  cases b <;> simp [maskList]

/-- C3: the equality filter selects exactly the matching rows and
preserves their relative input order — `SELECT a WHERE b = 0` over
`a = [1,2,3,4]`, `b = [0,5,0,5]` proves and verifies to `a = [1,3]`, and
the row-selection mask always yields a sublist of the input column. -/
theorem equality_filter_selects_matching_rows :
    ((prove equalityFilterPlan accessorC3).map
      (fun vqr => verify equalityFilterPlan vqr accessorC3) =
      some (.ok [("a", .bigInt [1, 3])])) ∧
    (∀ (p : List Bool) (xs : List Int), (maskList p xs).Sublist xs) := by
  refine ⟨by rfl, ?_⟩
  intro p
  induction p with
  | nil =>
    intro xs
    rw [maskList_nil_left]
    exact List.nil_sublist xs
  | cons b p ih =>
    intro xs
    cases xs with
    | nil => simp [maskList]
    | cons x xs =>
      rw [maskList_cons]
      cases b
      · exact List.Sublist.cons x (ih xs)
      · simpa using List.Sublist.cons₂ x (ih xs)

/-- The projection of the `we_can_prove_a_projection` test: columns `b`,
`c`, `d`, `e`, the constant `105` as `Int128`, and `b = c` as a boolean
column. -/
def scalarProjectionPlan : DynProofPlan :=
  .projection [(.column "b", "b"), (.column "c", "c"), (.column "d", "d"),
    (.column "e", "e"), (.litInt128 105, "const"),
    (.equalsExpr (.column "b") (.column "c"), "bool")]

/-- The accessor of the `we_can_prove_a_projection` test, including the
`Scalar`-typed column `e`. -/
def accessorC10 : OwnedTable :=
  [("a", .bigInt [101, 104, 105, 102, 105]),
   ("b", .bigInt [1, 2, 3, 4, 7]),
   ("c", .int128 [1, 3, 3, 4, 5]),
   ("d", .varChar ["1", "2", "3", "4", "5"]),
   ("e", .scalarCol [1, 2, 3, 4, 5])]

/-- C10: `Scalar`-typed columns are permitted at plan output — the
projection whose output includes the `Scalar` column `e` proves and
verifies successfully, and the verified table contains that column. -/
theorem projection_with_scalar_column_verifies :
    (prove scalarProjectionPlan accessorC10).map
      (fun vqr => verify scalarProjectionPlan vqr accessorC10) =
    some (.ok [("b", .bigInt [1, 2, 3, 4, 7]), ("c", .int128 [1, 3, 3, 4, 5]),
      ("d", .varChar ["1", "2", "3", "4", "5"]), ("e", .scalarCol [1, 2, 3, 4, 5]),
      ("const", .int128 [105, 105, 105, 105, 105]),
      ("bool", .boolean [true, false, true, true, false])]) := by
  rfl

/-- Modelled from the spec: §4.H's external Arrow column types —
`BooleanArray`, `Int64`, `Decimal128(p, s)`, `Utf8`, `Decimal256(p, s)`. -/
inductive ArrowType
  | booleanArray
  | int64
  | decimal128 (p : Nat) (s : Int)
  | utf8
  | decimal256 (p : Nat) (s : Int)
deriving DecidableEq

/-- Outcome of exporting a table through the Arrow boundary. Besides
success and a returned `UnsupportedType` error, the model has a variant
for a Rust panic, pinned by the in-repo test
`we_panic_when_converting_an_owned_table_with_a_scalar_column` whose
expected message is
"not implemented: Cannot convert Scalar type to arrow type". -/
inductive ExportOutcome
  | ok (schema : List (String × ArrowType))
  | errorUnsupportedType
  | panickedNotImplemented
deriving DecidableEq

/-- Modelled from the spec: the §4.H per-column export mapping
(`Boolean↔BooleanArray`, `BigInt↔Int64`, `Int128↔Decimal128(38,0)`,
`VarChar↔Utf8`, `Decimal75(p,s)↔Decimal256(p,s)`); the `Scalar` variant
has no external mapping (`none`). Missing from `src/`:
`owned_and_arrow_conversions.rs` (only its test is present). -/
def columnToArrowType : OwnedColumn → Option ArrowType
  | .boolean _ => some .booleanArray
  | .bigInt _ => some .int64
  | .int128 _ => some (.decimal128 38 0)
  | .varChar _ => some .utf8
  | .scalarCol _ => none
  | .decimal75 p s _ => some (.decimal256 p s)

/-- Whether a column is the raw-field-element `Scalar` variant. -/
def isScalarColumn : OwnedColumn → Bool
  | .scalarCol _ => true
  | _ => false

/-- Modelled from the spec and the in-repo test: `RecordBatch::try_from`
on an `OwnedTable`. Per §4.H every supported column maps to its Arrow
type, and a `Scalar` column has no mapping; the test
`we_panic_when_converting_an_owned_table_with_a_scalar_column` pins the
unmapped case to a panic (`unimplemented!`) rather than a returned
`UnsupportedType` error. -/
def recordBatchTryFromOwnedTable (t : OwnedTable) : ExportOutcome :=
  if t.all (fun c => (columnToArrowType c.2).isSome) then
    .ok (t.filterMap (fun c => (columnToArrowType c.2).map (fun a => (c.1, a))))
  else .panickedNotImplemented

/-- Counterexample for C7 as stated: exporting the table of the in-repo
test (a single `Scalar` column `"a"`) panics with the unimplemented
message; it does not return the `UnsupportedType` error the claim
asserts. -/
theorem scalar_export_panics_not_error :
    recordBatchTryFromOwnedTable [("a", OwnedColumn.scalarCol [])] =
      ExportOutcome.panickedNotImplemented ∧
    ExportOutcome.panickedNotImplemented ≠ ExportOutcome.errorUnsupportedType := by
  exact ⟨rfl, by decide⟩

/-- C7 (amended): exporting any table containing a `Scalar`-typed column
through the Arrow boundary fails — by panicking with
"not implemented: Cannot convert Scalar type to arrow type" — rather
than succeeding or returning an `UnsupportedType` error. -/
theorem scalar_export_refused (t : OwnedTable) (c : String × OwnedColumn)
    (hc : c ∈ t) (hsc : isScalarColumn c.2 = true) :
    recordBatchTryFromOwnedTable t = ExportOutcome.panickedNotImplemented := by
  unfold recordBatchTryFromOwnedTable
  rw [if_neg]
  intro hall
  have hmem := List.all_eq_true.mp hall c hc
  cases hcol : c.2 with
  | scalarCol vals =>
      rw [hcol] at hmem
      simp [columnToArrowType] at hmem
  | boolean vals => rw [hcol] at hsc; simp [isScalarColumn] at hsc
  | bigInt vals => rw [hcol] at hsc; simp [isScalarColumn] at hsc
  | int128 vals => rw [hcol] at hsc; simp [isScalarColumn] at hsc
  | varChar vals => rw [hcol] at hsc; simp [isScalarColumn] at hsc
  | decimal75 p s vals => rw [hcol] at hsc; simp [isScalarColumn] at hsc

/-- Witness for the amended C7 at the in-repo test's table. -/
theorem scalar_export_refused_witness :
    recordBatchTryFromOwnedTable [("a", OwnedColumn.scalarCol [])] =
      ExportOutcome.panickedNotImplemented :=
  scalar_export_refused [("a", OwnedColumn.scalarCol [])]
    ("a", OwnedColumn.scalarCol []) (by simp) (by decide)

/-- Case-fold an identifier for the boundary's case-insensitive
comparison (§6: "Case-sensitive internally, case-folded at the
boundary"). -/
def lowerName (s : String) : String := String.mk (s.data.map Char.toLower)

/-- Errors of the Arrow import boundary (§4.H, §7 BoundaryConversion). -/
inductive OwnedArrowConversionError
  | duplicateIdentifiers
  | unsupportedType
deriving DecidableEq

/-- Modelled from the spec: `OwnedTable::try_from` on a record batch —
§4.H: "Import fails with `DuplicateIdentifiers` when two column names
collide after case-insensitive comparison". Only the identifier handling
is modelled; per-column data conversion is not needed by the claims.
Missing from `src/`: `owned_and_arrow_conversions.rs`. -/
def ownedTableTryFromRecordBatch (cols : List (String × OwnedColumn)) :
    Except OwnedArrowConversionError OwnedTable :=
  if ((cols.map Prod.fst).map lowerName).Nodup then .ok cols
  else .error .duplicateIdentifiers

/-- C8: Arrow import rejects case-insensitive duplicate column names —
any column list whose names collide after case-folding fails with
`DuplicateIdentifiers`; in particular the distinct identifiers `"a"` and
`"A"` are rejected at this boundary even though the internal
`OwnedTable::try_new` (case-sensitive) accepts them. -/
theorem import_rejects_case_insensitive_duplicates :
    (∀ cols : List (String × OwnedColumn),
      ¬ ((cols.map Prod.fst).map lowerName).Nodup →
      ownedTableTryFromRecordBatch cols = .error .duplicateIdentifiers) ∧
    ownedTableTryFromRecordBatch [("a", .bigInt []), ("A", .int128 [])] =
      .error .duplicateIdentifiers ∧
    tryNewOwnedTable [("a", .bigInt []), ("A", .int128 [])] =
      .ok [("a", .bigInt []), ("A", .int128 [])] := by
  refine ⟨?_, ?_, ?_⟩
  · intro cols h
    unfold ownedTableTryFromRecordBatch
    rw [if_neg h]
  · unfold ownedTableTryFromRecordBatch
    rw [if_neg (by decide)]
  · unfold tryNewOwnedTable
    rw [if_pos (by decide)]
    rfl

/-- Witness for C8's universally quantified part at the test's column
names `"a"` and `"A"`. -/
theorem import_rejects_case_insensitive_duplicates_witness :
    ownedTableTryFromRecordBatch [("a", OwnedColumn.bigInt []), ("A", OwnedColumn.int128 [])] =
      .error .duplicateIdentifiers :=
  import_rejects_case_insensitive_duplicates.1
    [("a", OwnedColumn.bigInt []), ("A", OwnedColumn.int128 [])] (by decide)
